import Mathlib

/-!
Verification of the kumbh-watch crowd-monitoring backend
(`FastAPI/main.py`) against its natural-language specification.

The Python code is shallowly embedded: Python ints become `Nat`/`Int`,
Python floats become exact rationals `Rat` (or `Real` where the code
takes square roots), dictionaries keyed by strings become functions
`String -> Option _`, and Python exceptions become `Option`/`Except`
results.  Wall-clock timestamps are passed explicitly as rational
parameters.  String formatting of numeric values (f-strings) is embedded
structurally: a message template together with the embedded values.
-/

set_option maxHeartbeats 1000000

namespace KumbhWatch

/-- Density tiers used throughout `main.py` (the five string constants
"NONE" / "LOW" / "MEDIUM" / "HIGH" / "CRITICAL"). -/
inductive DensityLevel where
  | NONE
  | LOW
  | MEDIUM
  | HIGH
  | CRITICAL
deriving DecidableEq, Repr

/-- Ordinal rank of a density tier, NONE < LOW < MEDIUM < HIGH < CRITICAL. -/
def densityRank : DensityLevel → ℕ
  | .NONE => 0
  | .LOW => 1
  | .MEDIUM => 2
  | .HIGH => 3
  | .CRITICAL => 4

namespace FrameProcessor

/-- Embedding of `FrameProcessor._calculate_density_level` (main.py 590-601).
The Python signature also receives the detection list and the frame shape,
both unused, so they are dropped here.  The float literals `0.5` and `0.8`
are embedded as the exact rationals they denote. -/
def calculate_density_level (count : ℕ) (threshold : ℕ) : DensityLevel :=
  if count = 0 then .NONE
  else if (count : ℚ) < (threshold : ℚ) * (1 / 2) then .LOW
  else if (count : ℚ) < (threshold : ℚ) * (4 / 5) then .MEDIUM
  else if count < threshold then .HIGH
  else .CRITICAL

end FrameProcessor

/-- The two per-key dictionaries of the alert deduplicator
(`state.alert_content_hash` and `state.alert_last_sent`, main.py 129-130). -/
structure DedupState where
  alert_content_hash : String → Option String
  alert_last_sent : String → Option ℚ

/-- The dictionary key `f"{alert_type}_{camera_id}"` used by
`_should_send_alert` (main.py 1998). -/
def alertKey (alert_type camera_id : String) : String :=
  alert_type ++ "_" ++ camera_id

/-- The simultaneous update of both dedup dictionaries performed by
`_should_send_alert` before it returns `True` (main.py 2008-2009). -/
def dedupUpdate (st : DedupState) (key content_hash : String) (now : ℚ) : DedupState :=
  { alert_content_hash := fun k => if k = key then some content_hash else st.alert_content_hash k
    alert_last_sent := fun k => if k = key then some now else st.alert_last_sent k }

/-- Embedding of `_should_send_alert` (main.py 1995-2010).  The wall
clock `time.time()` is passed in as `now`.  The function returns the
boolean result together with the updated global dedup state; the early
`return False` leaves the state untouched. -/
def should_send_alert (now : ℚ) (alert_type camera_id content_hash : String)
    (debounce_time : ℚ) (st : DedupState) : Bool × DedupState :=
  let key := alertKey alert_type camera_id
  let suppress : Bool :=
    match st.alert_content_hash key with
    | some h =>
      if h = content_hash then
        match st.alert_last_sent key with
        | some t => decide (now - t < debounce_time)
        | none => false
      else false
    | none => false
  if suppress then
    (false, st)
  else
    (true, dedupUpdate st key content_hash now)

/-- Embedding of the `PersonDetection` dataclass (main.py 135-140).
Coordinates are embedded as exact rationals. -/
structure PersonDetection where
  bbox : ℚ × ℚ × ℚ × ℚ
  confidence : ℚ
  center : ℚ × ℚ
  area : ℚ
deriving DecidableEq

/-- Anomaly kinds produced by `FrameProcessor._detect_anomalies`. -/
inductive AnomalyType where
  | FALLEN_PERSON
  | STAMPEDE
  | HIGH_DENSITY_CLUSTER
deriving DecidableEq, Repr

/-- Severity strings used by the anomaly detectors. -/
inductive Severity where
  | MEDIUM
  | HIGH
  | CRITICAL
deriving DecidableEq, Repr

/-- Structural embedding of the `message` f-strings of the three anomaly
dictionaries: the template together with the numeric values it embeds. -/
inductive AnomalyMessage where
  | fallenPerson
  | stampede (avgMovement : ℝ)
  | highDensityCluster (peopleCount : ℕ)

/-- An anomaly dictionary as built in `_detect_anomalies` (main.py 603-666).
The `bbox` key is present only for fallen-person anomalies. -/
structure Anomaly where
  type : AnomalyType
  severity : Severity
  location : ℚ × ℚ
  confidence : ℚ
  bbox : Option (ℚ × ℚ × ℚ × ℚ)
  message : AnomalyMessage

/-- CONFIG value `thresholds.fallen_person_threshold` (main.py 95). -/
def fallen_person_threshold : ℚ := 3 / 10

/-- CONFIG value `thresholds.stampede_movement_threshold` (main.py 96). -/
def stampede_movement_threshold : ℚ := 50

/-- Aspect ratio `height / width if width > 0 else 0` of a detection
bounding box (main.py 609-612). -/
def aspect (d : PersonDetection) : ℚ :=
  let (x1, y1, x2, y2) := d.bbox
  let width := x2 - x1
  let height := y2 - y1
  if width > 0 then height / width else 0

/-- The fallen-person check for one detection (main.py 614-622): an
anomaly is produced iff the aspect ratio is strictly below the fallen
threshold. -/
def fallenAnomaly (d : PersonDetection) : Option Anomaly :=
  if aspect d < fallen_person_threshold then
    some
      { type := .FALLEN_PERSON
        severity := .HIGH
        location := d.center
        confidence := d.confidence
        bbox := some d.bbox
        message := .fallenPerson }
  else none

/-- Euclidean distance `np.sqrt((cx-px)**2 + (cy-py)**2)` between two
detection centers (main.py 635-636), idealized over the reals. -/
noncomputable def euclidDist (p q : ℚ × ℚ) : ℝ :=
  Real.sqrt (((p.1 : ℝ) - (q.1 : ℝ)) ^ 2 + ((p.2 : ℝ) - (q.2 : ℝ)) ^ 2)

/-- The nearest-neighbor distance of a current detection to the previous
detection set (main.py 633-639): the running minimum starts at infinity
and the value is recorded only when some previous detection exists, hence
an `Option` that is `none` exactly when the previous set is empty. -/
noncomputable def minMovement (c : PersonDetection) (prev : List PersonDetection) : Option ℝ :=
  (prev.map fun p => euclidDist c.center p.center).min?

/-- The list `movements` of nearest-neighbor distances over the current
detections (main.py 631-639). -/
noncomputable def movements (dets prev : List PersonDetection) : List ℝ :=
  dets.filterMap fun c => minMovement c prev

/-- Arithmetic mean `np.mean` of a list of reals (nan-free uses only). -/
noncomputable def meanR (l : List ℝ) : ℝ := l.sum / l.length

/-- The previous detection set used by the stampede check:
`movement_tracker[-2]` (main.py 627), the set two steps back in the
history ring (the current frame is appended only after anomaly
detection).  The tracker is kept in append order. -/
def prevDetections (tracker : List (List PersonDetection)) : List PersonDetection :=
  (tracker.get? (tracker.length - 2)).getD []

/-- The stampede check (main.py 624-648).  `shape` is the numpy frame
shape `(height, width)`; the anomaly is located at the frame center
`[shape[1]//2, shape[0]//2]`. -/
noncomputable def stampedeAnomalies (tracker : List (List PersonDetection))
    (dets : List PersonDetection) (shape : ℕ × ℕ) : List Anomaly :=
  if 3 ≤ tracker.length then
    let prev := prevDetections tracker
    if 5 < dets.length ∧ 5 < prev.length then
      let movs := movements dets prev
      if movs ≠ [] ∧ (stampede_movement_threshold : ℝ) < meanR movs then
        [{ type := .STAMPEDE
           severity := .CRITICAL
           location := ((shape.2 / 2 : ℕ), (shape.1 / 2 : ℕ))
           confidence := 4 / 5
           bbox := none
           message := .stampede (meanR movs) }]
      else []
    else []
  else []

/-- All unordered pairs of a list, in the row-major order produced by
`scipy.spatial.distance.pdist`. -/
def allPairs : List α → List (α × α)
  | [] => []
  | x :: xs => (xs.map fun y => (x, y)) ++ allPairs xs

/-- Mean center `np.mean(centers, axis=0)` of a nonempty center list. -/
def meanCenter (centers : List (ℚ × ℚ)) : ℚ × ℚ :=
  ((centers.map Prod.fst).sum / centers.length, (centers.map Prod.snd).sum / centers.length)

/-- The high-density clustering check (main.py 650-664). -/
noncomputable def clusterAnomalies (dets : List PersonDetection) : List Anomaly :=
  if 10 < dets.length then
    let centers := dets.map (·.center)
    if 1 < centers.length then
      let dists := (allPairs centers).map fun pq => euclidDist pq.1 pq.2
      if meanR dists < 50 then
        [{ type := .HIGH_DENSITY_CLUSTER
           severity := .MEDIUM
           location := meanCenter centers
           confidence := 7 / 10
           bbox := none
           message := .highDensityCluster dets.length }]
      else []
    else []
  else []

/-- Embedding of `FrameProcessor._detect_anomalies` (main.py 603-666):
the fallen-person anomalies in detection order, then the stampede
anomaly, then the clustering anomaly. -/
noncomputable def detect_anomalies (tracker : List (List PersonDetection))
    (dets : List PersonDetection) (shape : ℕ × ℕ) : List Anomaly :=
  dets.filterMap fallenAnomaly ++ stampedeAnomalies tracker dets shape ++ clusterAnomalies dets

/-- The fixed heatmap grid resolution (main.py 175). -/
def heatmap_resolution : ℕ := 50

/-- A `heatmap_resolution x heatmap_resolution` numpy grid of density
values, indexed `grid row column` like `heatmap[hy, hx]`. -/
abbrev Grid := Fin heatmap_resolution → Fin heatmap_resolution → ℚ

/-- Python `int(...)` conversion: truncation toward zero. -/
def pyTrunc (q : ℚ) : ℤ := if 0 ≤ q then ⌊q⌋ else ⌈q⌉

/-- Embedding of the `HeatmapGenerator` constructor state (main.py
171-176).  The zone coordinates are carried along but never used by the
heatmap computation; the mutable history list only feeds trend analysis
and is not modelled. -/
structure HeatmapGenerator where
  zone_coordinates : ℚ × ℚ
  zone_capacity : ℕ

namespace HeatmapGenerator

/-- Embedding of `_frame_to_heatmap_coords` (main.py 363-376):
`shape` is the numpy frame shape `(height, width)`. -/
def frame_to_heatmap_coords (center : ℚ × ℚ) (shape : ℕ × ℕ) : ℤ × ℤ :=
  (pyTrunc (center.1 / (shape.2 : ℚ) * heatmap_resolution),
   pyTrunc (center.2 / (shape.1 : ℚ) * heatmap_resolution))

/-- The raw accumulation grid of `generate_heatmap` before smoothing
(main.py 184-194): each detection inside the grid adds
`confidence * (area / 1000)` at its cell. -/
def baseGrid (dets : List PersonDetection) (shape : ℕ × ℕ) : Grid :=
  dets.foldl
    (fun g d =>
      let hx := (frame_to_heatmap_coords d.center shape).1
      let hy := (frame_to_heatmap_coords d.center shape).2
      if 0 ≤ hx ∧ hx < heatmap_resolution ∧ 0 ≤ hy ∧ hy < heatmap_resolution then
        fun i j =>
          if (i : ℤ) = hy ∧ (j : ℤ) = hx then g i j + d.confidence * (d.area / 1000)
          else g i j
      else g)
    fun _ _ => 0

/-- All grid cells in row-major (numpy) order. -/
def cells (g : Grid) : List ℚ :=
  (List.finRange heatmap_resolution).flatMap fun i =>
    (List.finRange heatmap_resolution).map (g i)

/-- Grid maximum `np.max(heatmap)` (the grid is never empty, so the
default of `max?` is unreachable). -/
def gridMax (g : Grid) : ℚ := ((cells g).max?).getD 0

/-- Grid sum `np.sum(heatmap)`. -/
def gridSum (g : Grid) : ℚ := (cells g).sum

/-- Embedding of `_get_density_level` (main.py 403-412). -/
def get_density_level (intensity : ℚ) : DensityLevel :=
  if intensity < 1 / 10 then .LOW
  else if intensity < 3 / 10 then .MEDIUM
  else if intensity < 6 / 10 then .HIGH
  else .CRITICAL

/-- A hotspot dictionary (main.py 394-399). -/
structure Hotspot where
  center_coordinates : ℤ × ℤ
  intensity : ℚ
  density_level : DensityLevel
  radius : ℤ
deriving DecidableEq

/-- Embedding of `_find_hotspots` (main.py 378-401): every cell whose
value strictly exceeds 60 percent of the grid maximum, in row-major
order, mapped back to 1280x720 frame coordinates. -/
def find_hotspots (g : Grid) : List Hotspot :=
  let threshold := gridMax g * (6 / 10)
  (List.finRange heatmap_resolution).flatMap fun hy =>
    (List.finRange heatmap_resolution).filterMap fun hx =>
      if g hy hx > threshold then
        some
          { center_coordinates :=
              (pyTrunc (((hx : ℕ) : ℚ) / heatmap_resolution * 1280),
               pyTrunc (((hy : ℕ) : ℚ) / heatmap_resolution * 720))
            intensity := g hy hx
            density_level := get_density_level (g hy hx)
            radius := pyTrunc (20 + g hy hx / gridMax g * 30) }
      else none

/-- Embedding of `HeatmapGenerator._calculate_density_level` (main.py
236-247), the occupancy-percentage breakpoint table. -/
def calculate_density_level (occupancy_percentage : ℚ) : DensityLevel :=
  if occupancy_percentage ≥ 90 then .CRITICAL
  else if occupancy_percentage ≥ 70 then .HIGH
  else if occupancy_percentage ≥ 40 then .MEDIUM
  else if occupancy_percentage ≥ 10 then .LOW
  else .NONE

end HeatmapGenerator

/-- The `HeatmapData` dictionary (main.py 217-227 and 416-424).  The
`density_level` key is present only in the nonempty branch, hence an
`Option`; the `color_heatmap` visualization payload and the `last_update`
wall-clock string are not modelled. -/
structure HeatmapData where
  hotspots : List HeatmapGenerator.Hotspot
  total_people : ℕ
  current_density : ℚ
  max_density : ℚ
  density_percentage : ℚ
  density_level : Option DensityLevel
  heatmap_shape : ℕ × ℕ

/-- Embedding of `HeatmapGenerator._empty_heatmap` (main.py 414-424):
no hotspots, zero people and all density aggregates zero. -/
def empty_heatmap : HeatmapData :=
  { hotspots := []
    total_people := 0
    current_density := 0
    max_density := 0
    density_percentage := 0
    density_level := none
    heatmap_shape := (heatmap_resolution, heatmap_resolution) }

/-- Embedding of `HeatmapGenerator.generate_heatmap` (main.py 178-234).
The scipy `gaussian_filter` is an external numeric routine, abstracted as
the `smooth` parameter; the branch for an empty detection list never
reaches it. -/
def generate_heatmap (smooth : Grid → Grid) (gen : HeatmapGenerator)
    (dets : List PersonDetection) (shape : ℕ × ℕ) : HeatmapData :=
  if dets = [] then empty_heatmap
  else
    let hs := smooth (HeatmapGenerator.baseGrid dets shape)
    let occupancy := (dets.length : ℚ) / (gen.zone_capacity : ℚ) * 100
    { hotspots := HeatmapGenerator.find_hotspots hs
      total_people := dets.length
      current_density := HeatmapGenerator.gridSum hs / ((heatmap_resolution : ℚ) ^ 2)
      max_density := HeatmapGenerator.gridMax hs
      density_percentage := occupancy
      density_level := some (HeatmapGenerator.calculate_density_level occupancy)
      heatmap_shape := (heatmap_resolution, heatmap_resolution) }

/-- CONFIG value `processing.frame_skip` (main.py 100). -/
def frame_skip : ℕ := 2

/-- The raw output of the detection adapter for one frame: `none` models
malformed output (`len(results) == 0` or `results[0].boxes is None`),
`some boxes` a list of xyxy boxes with confidences (main.py 541-544). -/
abbrev DetectorOutput := Option (List ((ℚ × ℚ × ℚ × ℚ) × ℚ))

/-- Extraction of person detections from the adapter output (main.py
540-556): malformed output yields the empty detection list. -/
def extract_detections (out : DetectorOutput) : List PersonDetection :=
  match out with
  | none => []
  | some boxes =>
    boxes.map fun bc =>
      let x1 := bc.1.1
      let y1 := bc.1.2.1
      let x2 := bc.1.2.2.1
      let y2 := bc.1.2.2.2
      { bbox := (x1, y1, x2, y2)
        confidence := bc.2
        center := ((x1 + x2) / 2, (y1 + y2) / 2)
        area := (x2 - x1) * (y2 - y1) }

/-- The `FrameAnalysis` dataclass (main.py 142-150); the capture
timestamp is not modelled. -/
structure FrameAnalysis where
  frame_id : String
  people_count : ℕ
  people_detections : List PersonDetection
  density_level : DensityLevel
  anomalies : List Anomaly
  heatmap_data : Option HeatmapData

/-- Embedding of `FrameProcessor._analyze_frame` (main.py 527-588).
`tracker` is the movement history before the current frame is appended;
`heatmapDue` is the wall-clock condition
`current_time - last_heatmap_update > heatmap_update_interval`.  -/
noncomputable def analyze_frame (camera_id : String) (frame_count : ℕ) (threshold : ℕ)
    (tracker : List (List PersonDetection)) (gen : Option HeatmapGenerator)
    (smooth : Grid → Grid) (heatmapDue : Bool) (out : DetectorOutput)
    (shape : ℕ × ℕ) : FrameAnalysis :=
  let dets := extract_detections out
  { frame_id := camera_id ++ "_" ++ toString frame_count
    people_count := dets.length
    people_detections := dets
    density_level := FrameProcessor.calculate_density_level dets.length threshold
    anomalies := detect_anomalies tracker dets shape
    heatmap_data :=
      match gen, heatmapDue with
      | some g, true => some (generate_heatmap smooth g dets shape)
      | _, _ => none }

/-- Outcome of one iteration of the `_process_stream` loop body
(main.py 490-519): keep looping, leave the loop, or hand the analysis of
this frame on to `_handle_analysis`. -/
inductive LoopAction where
  | continueLoop
  | breakLoop
  | publish (a : FrameAnalysis)

/-- One iteration of the source-worker loop body (main.py 490-516), for a
running worker.  `frame_count` is the counter after the `frame_count += 1`
increment; `result` is the outcome of running the detection adapter and
analysis on this frame, `Except.error` modelling a raised exception,
which the `except` clause turns into `continue`. -/
noncomputable def process_frame_step (camera_id : String) (is_rtsp : Bool)
    (frame_count : ℕ) (threshold : ℕ) (tracker : List (List PersonDetection))
    (gen : Option HeatmapGenerator) (smooth : Grid → Grid) (heatmapDue : Bool)
    (readOk : Bool) (result : Except String DetectorOutput) (shape : ℕ × ℕ) :
    LoopAction :=
  if !readOk then
    if is_rtsp then .continueLoop else .breakLoop
  else if frame_count % frame_skip ≠ 0 then .continueLoop
  else
    match result with
    | .error _ => .continueLoop
    | .ok out =>
      .publish (analyze_frame camera_id frame_count threshold tracker gen smooth
        heatmapDue out shape)

/-- JSON values appearing in alert payload dictionaries.  The payloads
hashed by `_create_content_hash` (the live-count, threshold-breach,
anomaly and heatmap alert dictionaries) are flat: object values are
strings, numbers, booleans, null or arrays of such, so nested objects are
not modelled. -/
inductive JValue where
  | jstr (s : String)
  | jnum (q : ℚ)
  | jbool (b : Bool)
  | jnull
  | jarr (l : List JValue)

mutual

/-- Serialization of a JSON value, as in `json.dumps` (the textual
format of numbers is idealized by the `Rat` printer; only injectivity
and determinism of the rendering matter here). -/
def serializeJValue : JValue → String
  | .jstr s => "\"" ++ s ++ "\""
  | .jnum q => toString q
  | .jbool b => cond b "true" "false"
  | .jnull => "null"
  | .jarr l => "[" ++ String.intercalate "," (serializeJList l) ++ "]"

/-- Serialization of a list of JSON values. -/
def serializeJList : List JValue → List String
  | [] => []
  | v :: vs => serializeJValue v :: serializeJList vs

end

/-- Comparison of payload entries by their key, the order used by
`json.dumps(data, sort_keys=True)`. -/
def pairKeyLe (a b : String × JValue) : Prop := a.1 ≤ b.1

instance : DecidableRel pairKeyLe := fun a b => inferInstanceAs (Decidable (a.1 ≤ b.1))

instance : IsTotal (String × JValue) pairKeyLe := ⟨fun a b => le_total a.1 b.1⟩

instance : IsTrans (String × JValue) pairKeyLe := ⟨fun _ _ _ h1 h2 => le_trans h1 h2⟩

/-- Strict key comparison; used to show the sorted form is unique for
payloads with pairwise-distinct keys. -/
def pairKeyLt (a b : String × JValue) : Prop := a.1 < b.1

instance : IsAntisymm (String × JValue) pairKeyLt :=
  ⟨fun _ _ h1 h2 => absurd h1 (not_lt.mpr (le_of_lt h2))⟩

/-- Embedding of `json.dumps(data, sort_keys=True)` (main.py 2016) on a
payload dictionary given as its construction-ordered entry list: the
entries are sorted by key (a stable sort, like CPython's) and serialized.
-/
def dumps_sorted (p : List (String × JValue)) : String :=
  let sorted := List.insertionSort pairKeyLe p
  "\x7b" ++
    String.intercalate ","
      (sorted.map fun kv => "\"" ++ kv.1 ++ "\":" ++ serializeJValue kv.2) ++
    "\x7d"

/-- Embedding of `_create_content_hash` (main.py 2012-2017).  The `md5`
digest is an external pure function of the serialized string, passed in
as a parameter. -/
def create_content_hash (md5 : String → String) (p : List (String × JValue)) : String :=
  md5 (dumps_sorted p)

/-- A zone record of `state.crowd_flow_data` as consumed by the
re-routing helpers (main.py 960-972): only the fields those helpers read
are modelled; trend and timestamp strings are omitted. -/
structure ZoneFlow where
  zone_id : String
  zone_name : String
  capacity : ℕ
  occupancy_percentage : ℚ
  people_count : ℕ
  density_level : DensityLevel
deriving DecidableEq

/-- The literal dictionary `{"LOW": 1, "MEDIUM": 2, "HIGH": 3,
"CRITICAL": 4}` used as the sort key (main.py 1920): a lookup of any
other tier raises `KeyError`, hence `none`. -/
def pythonDensityRank : DensityLevel → Option ℕ
  | .LOW => some 1
  | .MEDIUM => some 2
  | .HIGH => some 3
  | .CRITICAL => some 4
  | .NONE => none

/-- The literal dictionary `{"LOW": 1, "MEDIUM": 1.5, "HIGH": 2,
"CRITICAL": 3}` of `_estimate_wait_time` (main.py 1967); again a lookup
of NONE raises `KeyError`. -/
def densityMultiplier : DensityLevel → Option ℚ
  | .LOW => some 1
  | .MEDIUM => some (3 / 2)
  | .HIGH => some 2
  | .CRITICAL => some 3
  | .NONE => none

/-- Python `round()`: round half to even. -/
def pyRound (q : ℚ) : ℤ :=
  if q - ⌊q⌋ < 1 / 2 then ⌊q⌋
  else if q - ⌊q⌋ > 1 / 2 then ⌊q⌋ + 1
  else if ⌊q⌋ % 2 = 0 then ⌊q⌋ else ⌊q⌋ + 1

/-- Embedding of `_estimate_wait_time` (main.py 1963-1969):
`round(5 * (occupancy_percentage / 100) * density_multiplier)`. -/
def estimate_wait_time (z : ZoneFlow) : Option ℤ :=
  (densityMultiplier z.density_level).map fun m =>
    pyRound (5 * (z.occupancy_percentage / 100) * m)

/-- Embedding of `_calculate_urgency` (main.py 1949-1961). -/
def calculate_urgency (from_zone to_zone : ZoneFlow) : String :=
  if from_zone.density_level = .CRITICAL ∧ to_zone.density_level = .LOW then "critical"
  else if from_zone.density_level = .HIGH ∧ to_zone.density_level = .LOW then "high"
  else if from_zone.density_level = .MEDIUM ∧ to_zone.density_level = .LOW then "medium"
  else "low"

/-- Embedding of `_find_alternative_routes` (main.py 1981-1989). -/
def find_alternative_routes (from_zone_id to_zone_id : String)
    (all_zones : List ZoneFlow) : List String :=
  ((all_zones.filter fun z =>
      z.zone_id ≠ from_zone_id ∧ z.zone_id ≠ to_zone_id ∧
        z.density_level = .LOW).map
    fun z => z.zone_name).take 2

/-- Structural embedding of the human-readable reason f-strings of
`_generate_re_routing_reason` (main.py 1971-1979). -/
inductive ReRoutingReason where
  | criticalRedirect (toName : String)
  | highOccupancy (occ : ℚ) (toName : String)
  | betterConditions (toName : String) (wait : Option ℤ)
deriving DecidableEq

/-- Embedding of `_generate_re_routing_reason` (main.py 1971-1979). -/
def generate_re_routing_reason (from_zone to_zone : ZoneFlow) : ReRoutingReason :=
  if from_zone.density_level = .CRITICAL then .criticalRedirect to_zone.zone_name
  else if from_zone.occupancy_percentage > 80 then
    .highOccupancy from_zone.occupancy_percentage to_zone.zone_name
  else .betterConditions to_zone.zone_name (estimate_wait_time to_zone)

/-- A re-routing suggestion dictionary (main.py 1936-1947); the
`crowd_conditions` entry carries both zone records. -/
structure ReRoutingSuggestion where
  from_zone : String
  to_zone : String
  reason : ReRoutingReason
  urgency : String
  estimated_wait_time : ℤ
  alternative_routes : List String
  crowd_conditions_from : ZoneFlow
  crowd_conditions_to : ZoneFlow
deriving DecidableEq

/-- Embedding of `_create_re_routing_suggestion` (main.py 1931-1947);
`none` models the `KeyError` raised by `_estimate_wait_time` when the
target zone has tier NONE. -/
def create_re_routing_suggestion (from_zone to_zone : ZoneFlow) :
    Option ReRoutingSuggestion :=
  (estimate_wait_time to_zone).map fun w =>
    { from_zone := from_zone.zone_id
      to_zone := to_zone.zone_id
      reason := generate_re_routing_reason from_zone to_zone
      urgency := calculate_urgency from_zone to_zone
      estimated_wait_time := w
      alternative_routes :=
        find_alternative_routes from_zone.zone_id to_zone.zone_id [from_zone, to_zone]
      crowd_conditions_from := from_zone
      crowd_conditions_to := to_zone }

/-- The tuple sort key of main.py 1919-1922, first component.  The
default value 0 is never consulted: whenever a candidate has tier NONE
the surrounding `generate_re_routing_suggestions` returns `none` (the
`KeyError`) before the order matters. -/
def sortRank (z : ZoneFlow) : ℕ := (pythonDensityRank z.density_level).getD 0

/-- Lexicographic order on the Python sort key
`(tier rank, occupancy_percentage)`. -/
def zoneOrder (a b : ZoneFlow) : Prop :=
  sortRank a < sortRank b ∨
    (sortRank a = sortRank b ∧ a.occupancy_percentage ≤ b.occupancy_percentage)

instance : DecidableRel zoneOrder := fun a b => by
  unfold zoneOrder; infer_instance

instance : IsTotal ZoneFlow zoneOrder :=
  ⟨fun a b => by
    unfold zoneOrder
    rcases lt_trichotomy (sortRank a) (sortRank b) with h | h | h
    · exact Or.inl (Or.inl h)
    · rcases le_total a.occupancy_percentage b.occupancy_percentage with h2 | h2
      · exact Or.inl (Or.inr ⟨h, h2⟩)
      · exact Or.inr (Or.inr ⟨h.symm, h2⟩)
    · exact Or.inr (Or.inl h)⟩

instance : IsTrans ZoneFlow zoneOrder :=
  ⟨fun a b c h1 h2 => by
    unfold zoneOrder at *
    rcases h1 with h1 | ⟨h1, h1'⟩ <;> rcases h2 with h2 | ⟨h2, h2'⟩
    · exact Or.inl (h1.trans h2)
    · exact Or.inl (h2 ▸ h1)
    · exact Or.inl (h1 ▸ h2)
    · exact Or.inr ⟨h1.trans h2, h1'.trans h2'⟩⟩

/-- Embedding of `_generate_re_routing_suggestions` (main.py 1906-1929).
The source first filters out the current zone and every zone at CRITICAL
tier or at 90 percent occupancy or more; it then sorts by the key
`(tier rank, occupancy)` and maps the top three candidates to
suggestions.  CPython computes the sort key of every candidate before
sorting, so a single candidate at tier NONE raises `KeyError` (modelled
by the `none` branch); past that guard the candidates all have a
multiplier, so building the suggestions succeeds. -/
def generate_re_routing_suggestions (current_zone : ZoneFlow)
    (all_zones : List ZoneFlow) : Option (List ReRoutingSuggestion) :=
  let candidate_zones := all_zones.filter fun z =>
    z.zone_id ≠ current_zone.zone_id ∧ z.density_level ≠ .CRITICAL ∧
      z.occupancy_percentage < 90
  if candidate_zones.all fun z => z.density_level ≠ .NONE then
    ((List.insertionSort zoneOrder candidate_zones).take 3).mapM
      (create_re_routing_suggestion current_zone)
  else none

/-- The live-count update dictionary (main.py 704-715); the timestamp
string is omitted and `threshold_status` is modelled as the boolean
`exceeded`. -/
structure CountUpdateMsg where
  camera_id : String
  zone_id : Option String
  current_count : ℕ
  previous_count : ℕ
  change : ℤ
  density_level : DensityLevel
  threshold : ℕ
  exceeded : Bool

/-- The threshold-breach alert dictionary (main.py 724-735); the random
id and the timestamp string are omitted. -/
structure ThresholdBreachMsg where
  camera_id : String
  zone_id : Option String
  severity : Severity
  people_count : ℕ
  threshold : ℕ
  density_level : DensityLevel

/-- A message published on the "alerts" websocket channel by
`_handle_analysis`. -/
inductive AlertChannelMsg where
  | countUpdate (m : CountUpdateMsg)
  | thresholdBreach (m : ThresholdBreachMsg)
  | anomalyAlert (camera_id : String) (zone_id : Option String) (a : Anomaly)
  | heatmapAlert (camera_id : String) (zone_id : Option String) (severity : Severity)
      (hm : HeatmapData)

/-- Discriminator: is the message one of the two count-driven kinds. -/
def isCountOrBreach : AlertChannelMsg → Bool
  | .countUpdate _ => true
  | .thresholdBreach _ => true
  | _ => false

/-- The anomaly-alert loop of `_handle_analysis` (main.py 745-762): one
dedup check and conditional publish per anomaly, threading the dedup
state.  `hashAN` abstracts `_create_content_hash` on the anomaly alert
dictionary. -/
def anomaly_alert_loop (hashAN : Anomaly → String) (now : ℚ) (camera_id : String)
    (zone_id : Option String) :
    List Anomaly → DedupState → List AlertChannelMsg × DedupState
  | [], st => ([], st)
  | a :: rest, st =>
    let r := should_send_alert now "ANOMALY_ALERT" camera_id (hashAN a) 15 st
    let tail := anomaly_alert_loop hashAN now camera_id zone_id rest r.2
    ((if r.1 then [.anomalyAlert camera_id zone_id a] else []) ++ tail.1, tail.2)

/-- Embedding of the alerts-channel portion of
`FrameProcessor._handle_analysis` (main.py 702-779): the count-change
section (live count update and threshold breach), then the anomaly loop,
then the heatmap alert.  The zone bookkeeping and the "frames"/"live_map"
channels are outside this claim's scope.  Returns the published alert
messages in order, the new `last_count`, and the new dedup state.  The
`hash..` parameters abstract `_create_content_hash` on the respective
dictionaries. -/
def handle_analysis_alerts (hashCU : CountUpdateMsg → String)
    (hashTB : ThresholdBreachMsg → String) (hashAN : Anomaly → String)
    (hashHM : HeatmapData → String) (now : ℚ) (camera_id : String)
    (zone_id : Option String) (threshold : ℕ) (last_count : ℕ)
    (analysis : FrameAnalysis) (st : DedupState) :
    List AlertChannelMsg × ℕ × DedupState :=
  let countSection : List AlertChannelMsg × ℕ × DedupState :=
    if analysis.people_count ≠ last_count then
      let cu : CountUpdateMsg :=
        { camera_id := camera_id
          zone_id := zone_id
          current_count := analysis.people_count
          previous_count := last_count
          change := (analysis.people_count : ℤ) - (last_count : ℤ)
          density_level := analysis.density_level
          threshold := threshold
          exceeded := decide (threshold < analysis.people_count) }
      let r1 := should_send_alert now "LIVE_COUNT_UPDATE" camera_id (hashCU cu) 2 st
      let m1 := if r1.1 then [AlertChannelMsg.countUpdate cu] else []
      if threshold < analysis.people_count then
        let tb : ThresholdBreachMsg :=
          { camera_id := camera_id
            zone_id := zone_id
            severity :=
              if (threshold : ℚ) * (6 / 5) < (analysis.people_count : ℚ) then .HIGH
              else .MEDIUM
            people_count := analysis.people_count
            threshold := threshold
            density_level := analysis.density_level }
        let r2 := should_send_alert now "THRESHOLD_BREACH" camera_id (hashTB tb) 10 r1.2
        (m1 ++ (if r2.1 then [AlertChannelMsg.thresholdBreach tb] else []),
          analysis.people_count, r2.2)
      else (m1, analysis.people_count, r1.2)
    else ([], last_count, st)
  let anomalySection :=
    anomaly_alert_loop hashAN now camera_id zone_id analysis.anomalies countSection.2.2
  let heatmapSection : List AlertChannelMsg × DedupState :=
    match analysis.heatmap_data with
    | some hm =>
      let sev : Severity := if threshold < analysis.people_count then .HIGH else .MEDIUM
      let r := should_send_alert now "HEATMAP_ALERT" camera_id (hashHM hm) 5 anomalySection.2
      ((if r.1 then [.heatmapAlert camera_id zone_id sev hm] else []), r.2)
    | none => ([], anomalySection.2)
  (countSection.1 ++ anomalySection.1 ++ heatmapSection.1, countSection.2.1,
    heatmapSection.2)

/-! ## Theorems -/

/-- Auxiliary: the comparison `count < threshold * 0.5` over exact
rationals is the integer comparison `2 * count < threshold`. -/
theorem cast_lt_half {c t : ℕ} : ((c : ℚ) < (t : ℚ) * (1 / 2)) ↔ 2 * c < t := by
  constructor
  · intro h
    have h2 : ((2 * c : ℕ) : ℚ) < (t : ℚ) := by push_cast; linarith
    exact_mod_cast h2
  · intro h
    have h2 : ((2 * c : ℕ) : ℚ) < (t : ℚ) := by exact_mod_cast h
    push_cast at h2; linarith

/-- Auxiliary: the comparison `count < threshold * 0.8` over exact
rationals is the integer comparison `5 * count < 4 * threshold`. -/
theorem cast_lt_fourfifths {c t : ℕ} : ((c : ℚ) < (t : ℚ) * (4 / 5)) ↔ 5 * c < 4 * t := by
  constructor
  · intro h
    have h2 : ((5 * c : ℕ) : ℚ) < ((4 * t : ℕ) : ℚ) := by push_cast; linarith
    exact_mod_cast h2
  · intro h
    have h2 : ((5 * c : ℕ) : ℚ) < ((4 * t : ℕ) : ℚ) := by exact_mod_cast h
    push_cast at h2; linarith

/-- Density level computation restated with integer comparisons only. -/
theorem calculate_density_level_eq (c t : ℕ) :
    FrameProcessor.calculate_density_level c t =
      if c = 0 then .NONE
      else if 2 * c < t then .LOW
      else if 5 * c < 4 * t then .MEDIUM
      else if c < t then .HIGH
      else .CRITICAL := by
  simp only [FrameProcessor.calculate_density_level, cast_lt_half, cast_lt_fourfifths]

/-- C1: for every detection count `c` and per-camera threshold `t > 0`, the
density tier of `FrameProcessor._calculate_density_level` is NONE iff
`c = 0`, LOW iff `0 < c < 0.5 t`, MEDIUM iff `0.5 t <= c < 0.8 t`, HIGH iff
`0.8 t <= c < t`, and CRITICAL iff `c >= t`; and the tier (as an ordinal
rank) is a total, monotonically non-decreasing function of `c` for fixed
`t`, the boundary values falling into the higher tier. -/
theorem density_tier_policy (c t : ℕ) (ht : 0 < t) :
    (FrameProcessor.calculate_density_level c t = .NONE ↔ c = 0) ∧
    (FrameProcessor.calculate_density_level c t = .LOW ↔
      0 < c ∧ (c : ℚ) < (1 / 2) * (t : ℚ)) ∧
    (FrameProcessor.calculate_density_level c t = .MEDIUM ↔
      (1 / 2) * (t : ℚ) ≤ (c : ℚ) ∧ (c : ℚ) < (4 / 5) * (t : ℚ)) ∧
    (FrameProcessor.calculate_density_level c t = .HIGH ↔
      (4 / 5) * (t : ℚ) ≤ (c : ℚ) ∧ (c : ℚ) < (t : ℚ)) ∧
    (FrameProcessor.calculate_density_level c t = .CRITICAL ↔ (t : ℚ) ≤ (c : ℚ)) ∧
    (∀ c', c ≤ c' →
      densityRank (FrameProcessor.calculate_density_level c t) ≤
        densityRank (FrameProcessor.calculate_density_level c' t)) := by
  have hhalf : ((1 / 2) * (t : ℚ) ≤ (c : ℚ)) ↔ t ≤ 2 * c := by
    rw [← not_lt, ← not_lt]
    exact not_congr (by rw [mul_comm] at *; exact cast_lt_half)
  have hfour : ((4 / 5) * (t : ℚ) ≤ (c : ℚ)) ↔ 4 * t ≤ 5 * c := by
    rw [← not_lt, ← not_lt]
    exact not_congr (by rw [mul_comm] at *; exact cast_lt_fourfifths)
  have hlt2 : ((c : ℚ) < (1 / 2) * (t : ℚ)) ↔ 2 * c < t := by
    rw [mul_comm]; exact cast_lt_half
  have hlt5 : ((c : ℚ) < (4 / 5) * (t : ℚ)) ↔ 5 * c < 4 * t := by
    rw [mul_comm]; exact cast_lt_fourfifths
  have hltc : ((c : ℚ) < (t : ℚ)) ↔ c < t := by exact_mod_cast Iff.rfl
  have hlec : ((t : ℚ) ≤ (c : ℚ)) ↔ t ≤ c := by exact_mod_cast Iff.rfl
  refine ⟨?_, ?_, ?_, ?_, ?_, ?_⟩
  · rw [calculate_density_level_eq]; split_ifs <;> simp_all
  · rw [calculate_density_level_eq, hlt2]
    split_ifs <;> simp_all <;> omega
  · rw [calculate_density_level_eq, hhalf, hlt5]
    split_ifs <;> simp_all <;> omega
  · rw [calculate_density_level_eq, hfour, hltc]
    split_ifs <;> simp_all <;> omega
  · rw [calculate_density_level_eq, hlec]
    split_ifs <;> simp_all <;> omega
  · intro c' hcc'
    rw [calculate_density_level_eq, calculate_density_level_eq]
    split_ifs <;> simp [densityRank] <;> omega

/-- C1 witness: with the default threshold 20 the boundary count
`16 = 0.8 * 20` falls into the HIGH tier (not MEDIUM). -/
theorem density_tier_policy_witness :
    FrameProcessor.calculate_density_level 16 20 = .HIGH := by
  exact (density_tier_policy 16 20 (by norm_num)).2.2.2.1.mpr (by norm_num)

/-- Auxiliary: `_should_send_alert` suppresses (returns `False` and leaves
the state untouched) when the stored hash matches and the last send is
within the debounce window. -/
theorem should_send_alert_suppress
    {now d : ℚ} {ty cam ch : String} {st : DedupState} {t0 : ℚ}
    (hh : st.alert_content_hash (alertKey ty cam) = some ch)
    (hl : st.alert_last_sent (alertKey ty cam) = some t0)
    (hlt : now - t0 < d) :
    should_send_alert now ty cam ch d st = (false, st) := by
  simp [should_send_alert, hh, hl, hlt]

/-- Auxiliary: in every other situation `_should_send_alert` sends:
it returns `True` and overwrites both the stored hash and timestamp. -/
theorem should_send_alert_send
    {now d : ℚ} {ty cam ch : String} {st : DedupState}
    (h : ¬(st.alert_content_hash (alertKey ty cam) = some ch ∧
      ∃ t0, st.alert_last_sent (alertKey ty cam) = some t0 ∧ now - t0 < d)) :
    should_send_alert now ty cam ch d st =
      (true, dedupUpdate st (alertKey ty cam) ch now) := by
  rcases hh : st.alert_content_hash (alertKey ty cam) with _ | h0
  · simp [should_send_alert, hh]
  · rcases hl : st.alert_last_sent (alertKey ty cam) with _ | t0
    · simp [should_send_alert, hh, hl]
    · by_cases hc : h0 = ch
      · subst hc
        have hnlt : ¬(now - t0 < d) := by
          intro hlt; exact h ⟨hh, t0, hl, hlt⟩
        simp [should_send_alert, hh, hl, hnlt]
      · simp [should_send_alert, hh, hl, hc]

/-- C2: `_should_send_alert` returns `False` iff the stored hash for the
key equals the new hash and the elapsed time since the last send for the
key is below the debounce window; otherwise it returns `True` and updates
both the stored hash and the last-sent timestamp.  Consequently, for the
same (kind, source, hash): after a sending call, a second call within the
window suppresses and a third call after the window sends again; and a
call whose hash differs from the stored one always sends. -/
theorem should_send_alert_spec
    (st : DedupState) (ty cam ch : String) (d now now2 now3 : ℚ) :
    ((should_send_alert now ty cam ch d st).1 = false ↔
      (st.alert_content_hash (alertKey ty cam) = some ch ∧
        ∃ t0, st.alert_last_sent (alertKey ty cam) = some t0 ∧ now - t0 < d)) ∧
    ((should_send_alert now ty cam ch d st).1 = true →
      (should_send_alert now ty cam ch d st).2.alert_content_hash (alertKey ty cam) = some ch ∧
      (should_send_alert now ty cam ch d st).2.alert_last_sent (alertKey ty cam) = some now) ∧
    ((should_send_alert now ty cam ch d st).1 = false →
      (should_send_alert now ty cam ch d st).2 = st) ∧
    ((should_send_alert now ty cam ch d st).1 = true →
      now2 - now < d → d ≤ now3 - now →
      ((should_send_alert now2 ty cam ch d (should_send_alert now ty cam ch d st).2).1 = false ∧
        (should_send_alert now3 ty cam ch d
          (should_send_alert now2 ty cam ch d (should_send_alert now ty cam ch d st).2).2).1 =
          true)) ∧
    (st.alert_content_hash (alertKey ty cam) ≠ some ch →
      (should_send_alert now ty cam ch d st).1 = true ∧
      (should_send_alert now ty cam ch d st).2.alert_content_hash (alertKey ty cam) = some ch ∧
      (should_send_alert now ty cam ch d st).2.alert_last_sent (alertKey ty cam) = some now) := by
  by_cases hcond : st.alert_content_hash (alertKey ty cam) = some ch ∧
      ∃ t0, st.alert_last_sent (alertKey ty cam) = some t0 ∧ now - t0 < d
  · obtain ⟨hh, t0, hl, hlt⟩ := hcond
    rw [should_send_alert_suppress hh hl hlt]
    refine ⟨by simp [hh, hl, hlt], by simp, by simp, by simp, ?_⟩
    intro hne; exact absurd hh hne
  · rw [should_send_alert_send hcond]
    have hupd1 : (dedupUpdate st (alertKey ty cam) ch now).alert_content_hash (alertKey ty cam) =
        some ch := by simp [dedupUpdate]
    have hupd2 : (dedupUpdate st (alertKey ty cam) ch now).alert_last_sent (alertKey ty cam) =
        some now := by simp [dedupUpdate]
    refine ⟨by simp [hcond], by intro _; exact ⟨hupd1, hupd2⟩, by simp, ?_, ?_⟩
    · intro _ h2 h3
      have hs2 : should_send_alert now2 ty cam ch d (dedupUpdate st (alertKey ty cam) ch now) =
          (false, dedupUpdate st (alertKey ty cam) ch now) :=
        should_send_alert_suppress hupd1 hupd2 h2
      refine ⟨by rw [hs2], ?_⟩
      rw [hs2]
      have hs3 : should_send_alert now3 ty cam ch d (dedupUpdate st (alertKey ty cam) ch now) =
          (true, dedupUpdate (dedupUpdate st (alertKey ty cam) ch now) (alertKey ty cam) ch now3) := by
        apply should_send_alert_send
        rintro ⟨_, t0, hl0, hlt0⟩
        rw [hupd2] at hl0
        have : t0 = now := by injection hl0 with h; exact h.symm
        subst this
        linarith
      rw [hs3]
    · intro _; exact ⟨rfl, hupd1, hupd2⟩

/-- Width `x2 - x1` of a detection bounding box. -/
def bboxWidth (d : PersonDetection) : ℚ := d.bbox.2.2.1 - d.bbox.1

/-- C4: for every detection the fallen-person detector emits a HIGH
FALLEN_PERSON anomaly at the detection center iff its aspect ratio
height/width is strictly below 0.3; a zero-width detection gets ratio 0
and therefore qualifies (the guard `width > 0` makes the computation
total, never a division error); and `_detect_anomalies` runs this check
over every detection of the current frame. -/
theorem fallen_person_spec (d : PersonDetection) :
    ((fallenAnomaly d).isSome ↔ aspect d < 3 / 10) ∧
    (∀ a, fallenAnomaly d = some a →
      a.type = .FALLEN_PERSON ∧ a.severity = .HIGH ∧ a.location = d.center ∧
        a.confidence = d.confidence) ∧
    (bboxWidth d = 0 → aspect d = 0 ∧ (fallenAnomaly d).isSome) ∧
    (∀ tracker dets shape, detect_anomalies tracker dets shape =
      dets.filterMap fallenAnomaly ++ stampedeAnomalies tracker dets shape ++
        clusterAnomalies dets) := by
  refine ⟨?_, ?_, ?_, fun _ _ _ => rfl⟩
  · simp only [fallenAnomaly, fallen_person_threshold]
    split_ifs with h <;> simp [h]
  · intro a ha
    simp only [fallenAnomaly] at ha
    split_ifs at ha
    cases Option.some.inj ha
    exact ⟨rfl, rfl, rfl, rfl⟩
  · intro hw
    obtain ⟨bb, conf, ctr, ar⟩ := d
    obtain ⟨x1, y1, x2, y2⟩ := bb
    simp only [bboxWidth] at hw
    have ha : aspect ⟨(x1, y1, x2, y2), conf, ctr, ar⟩ = 0 := by
      simp only [aspect]
      rw [if_neg (by simp [hw])]
    refine ⟨ha, ?_⟩
    simp [fallenAnomaly, ha, fallen_person_threshold]

/-- A concrete zero-width detection for the C4 witness. -/
def zeroWidthDet : PersonDetection :=
  { bbox := (5, 0, 5, 9), confidence := 9 / 10, center := (5, 9 / 2), area := 0 }

/-- C4 witness: the zero-width detection has ratio 0 and yields a
fallen-person anomaly. -/
theorem fallen_person_spec_witness :
    aspect zeroWidthDet = 0 ∧ (fallenAnomaly zeroWidthDet).isSome := by
  exact (fallen_person_spec zeroWidthDet).2.2.1 (by norm_num [bboxWidth, zeroWidthDet])

/-- Auxiliary: the nearest-neighbor distance exists whenever the previous
detection set is nonempty. -/
theorem minMovement_isSome (c : PersonDetection) {prev : List PersonDetection}
    (hp : prev ≠ []) : ∃ v, minMovement c prev = some v := by
  rcases prev with _ | ⟨p, ps⟩
  · exact absurd rfl hp
  · have h : (minMovement c (p :: ps)).isSome := by
      rw [minMovement, List.map_cons, List.min?_cons']
      rfl
    exact Option.isSome_iff_exists.mp h

/-- Auxiliary: with a nonempty previous set, every current detection
contributes one movement value. -/
theorem movements_length {prev : List PersonDetection} (hp : prev ≠ []) :
    ∀ dets : List PersonDetection, (movements dets prev).length = dets.length := by
  intro dets
  induction dets with
  | nil => simp [movements]
  | cons c cs ih =>
    obtain ⟨v, hv⟩ := minMovement_isSome c hp
    simp only [movements, List.filterMap_cons, hv]
    simpa [movements] using ih

/-- C3: the stampede anomaly fires only when both the current detection
set and the historical set two steps back have more than 5 detections and
the mean nearest-neighbor distance exceeds the 50 px threshold; with 5 or
fewer detections in either set it never fires regardless of movement; and
when it fires it is exactly one CRITICAL anomaly at the frame center with
confidence 0.8 and a message embedding the computed average. -/
theorem stampede_spec (tracker : List (List PersonDetection))
    (dets : List PersonDetection) (shape : ℕ × ℕ) :
    (∀ a ∈ stampedeAnomalies tracker dets shape,
      5 < dets.length ∧ 5 < (prevDetections tracker).length ∧
        (stampede_movement_threshold : ℝ) <
          meanR (movements dets (prevDetections tracker))) ∧
    ((dets.length ≤ 5 ∨ (prevDetections tracker).length ≤ 5) →
      stampedeAnomalies tracker dets shape = []) ∧
    (3 ≤ tracker.length → 5 < dets.length → 5 < (prevDetections tracker).length →
      (stampede_movement_threshold : ℝ) < meanR (movements dets (prevDetections tracker)) →
      stampedeAnomalies tracker dets shape =
        [{ type := .STAMPEDE
           severity := .CRITICAL
           location := ((shape.2 / 2 : ℕ), (shape.1 / 2 : ℕ))
           confidence := 4 / 5
           bbox := none
           message := .stampede (meanR (movements dets (prevDetections tracker))) }]) := by
  refine ⟨?_, ?_, ?_⟩
  · simp only [stampedeAnomalies]
    split_ifs with h1 h2 h3
    · intro a ha
      exact ⟨h2.1, h2.2, h3.2⟩
    · intro a ha; simp at ha
    · intro a ha; simp at ha
    · intro a ha; simp at ha
  · intro hle
    simp only [stampedeAnomalies]
    split_ifs with h1 h2 h3
    · rcases hle with hle | hle
      · exact absurd h2.1 (by omega)
      · exact absurd h2.2 (by omega)
    · rfl
    · rfl
    · rfl
  · intro ht h5 h5' havg
    have hne : movements dets (prevDetections tracker) ≠ [] := by
      intro hnil
      have := movements_length
        (show prevDetections tracker ≠ [] by
          intro h0; rw [h0] at h5'; simp at h5') dets
      rw [hnil] at this
      simp at this
      omega
    simp only [stampedeAnomalies]
    rw [if_pos ht, if_pos ⟨h5, h5'⟩, if_pos ⟨hne, havg⟩]

/-- A concrete detection at a given center for the C3 witness. -/
def detAt (x y : ℚ) : PersonDetection :=
  { bbox := (x - 10, y - 20, x + 10, y + 20), confidence := 9 / 10,
    center := (x, y), area := 800 }

/-- Six previous detections, all at the origin. -/
def stampedeWitnessPrev : List PersonDetection :=
  [detAt 0 0, detAt 0 0, detAt 0 0, detAt 0 0, detAt 0 0, detAt 0 0]

/-- Six current detections, all 60 px to the right of the origin. -/
def stampedeWitnessCurr : List PersonDetection :=
  [detAt 60 0, detAt 60 0, detAt 60 0, detAt 60 0, detAt 60 0, detAt 60 0]

/-- A three-deep movement history whose set two steps back is the
previous witness set. -/
def stampedeWitnessTracker : List (List PersonDetection) :=
  [stampedeWitnessPrev, stampedeWitnessPrev, stampedeWitnessPrev]

/-- C3 witness: six detections moving 60 px fire exactly one CRITICAL
stampede anomaly at the center of a 1280x720 frame with average 60,
while an empty current set never fires. -/
theorem stampede_spec_witness :
    stampedeAnomalies stampedeWitnessTracker stampedeWitnessCurr (720, 1280) =
      [{ type := .STAMPEDE
         severity := .CRITICAL
         location := (640, 360)
         confidence := 4 / 5
         bbox := none
         message := .stampede 60 }] ∧
    stampedeAnomalies stampedeWitnessTracker [] (720, 1280) = [] := by
  have hprev : prevDetections stampedeWitnessTracker = stampedeWitnessPrev := rfl
  have hd : euclidDist (detAt 60 0).center (detAt 0 0).center = 60 := by
    simp only [euclidDist, detAt]
    push_cast
    rw [show ((60 : ℝ) - 0) ^ 2 + ((0 : ℝ) - 0) ^ 2 = 60 ^ 2 by norm_num]
    rw [Real.sqrt_sq (by norm_num)]
  have hmin : minMovement (detAt 60 0) stampedeWitnessPrev = some 60 := by
    simp only [minMovement, stampedeWitnessPrev, List.map_cons, List.map_nil, hd]
    simp [List.min?_cons', min_self]
  have hmov : movements stampedeWitnessCurr (prevDetections stampedeWitnessTracker) =
      [60, 60, 60, 60, 60, 60] := by
    rw [hprev]
    simp only [movements, stampedeWitnessCurr, List.filterMap_cons, List.filterMap_nil, hmin]
  have hmean : meanR (movements stampedeWitnessCurr (prevDetections stampedeWitnessTracker)) =
      60 := by
    rw [hmov]
    norm_num [meanR]
  have h := stampede_spec stampedeWitnessTracker stampedeWitnessCurr (720, 1280)
  constructor
  · have hfire := h.2.2 (by norm_num [stampedeWitnessTracker])
      (by norm_num [stampedeWitnessCurr])
      (by rw [hprev]; norm_num [stampedeWitnessPrev])
      (by rw [hmean]; norm_num [stampede_movement_threshold])
    rw [hfire, hmean]
    norm_num
  · exact (stampede_spec stampedeWitnessTracker [] (720, 1280)).2.1 (Or.inl (by simp))

/-- The empty dedup state (fresh `GlobalState` dictionaries). -/
def emptyDedupState : DedupState :=
  { alert_content_hash := fun _ => none, alert_last_sent := fun _ => none }

/-- C2 witness: concretely, from the empty state, a send at time 0, a
suppressed repeat at time 1 (debounce 5), and a resend at time 10. -/
theorem should_send_alert_spec_witness :
    (should_send_alert 0 "LIVE_COUNT_UPDATE" "cam1" "h1" 5 emptyDedupState).1 = true ∧
    (should_send_alert 1 "LIVE_COUNT_UPDATE" "cam1" "h1" 5
      (should_send_alert 0 "LIVE_COUNT_UPDATE" "cam1" "h1" 5 emptyDedupState).2).1 = false ∧
    (should_send_alert 10 "LIVE_COUNT_UPDATE" "cam1" "h1" 5
      (should_send_alert 1 "LIVE_COUNT_UPDATE" "cam1" "h1" 5
        (should_send_alert 0 "LIVE_COUNT_UPDATE" "cam1" "h1" 5 emptyDedupState).2).2).1 = true := by
  have h := should_send_alert_spec emptyDedupState "LIVE_COUNT_UPDATE" "cam1" "h1" 5 0 1 10
  have h1 : (should_send_alert 0 "LIVE_COUNT_UPDATE" "cam1" "h1" 5 emptyDedupState).1 = true := by
    rfl
  have hrest := h.2.2.2.1 h1 (by norm_num) (by norm_num)
  exact ⟨h1, hrest.1, hrest.2⟩

/-- C6: a frame on which the detection adapter fails or returns malformed
output never stops the source loop: malformed output (`none`) is analyzed
as zero detections, and a raised exception (`Except.error`) makes the
loop body continue to the next frame, never break. -/
theorem bad_frame_resilience :
    (∀ (camera_id : String) (frame_count threshold : ℕ)
        (tracker : List (List PersonDetection)) (gen : Option HeatmapGenerator)
        (smooth : Grid → Grid) (heatmapDue : Bool) (shape : ℕ × ℕ),
      (analyze_frame camera_id frame_count threshold tracker gen smooth heatmapDue
          none shape).people_count = 0 ∧
      (analyze_frame camera_id frame_count threshold tracker gen smooth heatmapDue
          none shape).people_detections = [] ∧
      (analyze_frame camera_id frame_count threshold tracker gen smooth heatmapDue
          (some []) shape).people_count = 0) ∧
    (∀ (camera_id : String) (is_rtsp : Bool) (frame_count threshold : ℕ)
        (tracker : List (List PersonDetection)) (gen : Option HeatmapGenerator)
        (smooth : Grid → Grid) (heatmapDue : Bool) (msg : String) (shape : ℕ × ℕ),
      process_frame_step camera_id is_rtsp frame_count threshold tracker gen smooth
          heatmapDue true (.error msg) shape = .continueLoop) := by
  constructor
  · intro camera_id frame_count threshold tracker gen smooth heatmapDue shape
    exact ⟨rfl, rfl, rfl⟩
  · intro camera_id is_rtsp frame_count threshold tracker gen smooth heatmapDue msg shape
    simp only [process_frame_step, Bool.not_true, Bool.false_eq_true, if_false]
    split_ifs <;> rfl

/-- C7: an empty detection list always yields the well-defined empty
heatmap value: empty hotspot list, zero people, and all three density
aggregates (current, max, percentage) equal to zero - never an absent
result. -/
theorem empty_detections_heatmap (smooth : Grid → Grid) (gen : HeatmapGenerator)
    (shape : ℕ × ℕ) :
    generate_heatmap smooth gen [] shape = empty_heatmap ∧
    empty_heatmap.hotspots = [] ∧
    empty_heatmap.total_people = 0 ∧
    empty_heatmap.current_density = 0 ∧
    empty_heatmap.max_density = 0 ∧
    empty_heatmap.density_percentage = 0 :=
  ⟨rfl, rfl, rfl, rfl, rfl, rfl⟩

/-- C8: the content hash is invariant under the construction order of the
payload fields: two payloads with the same key/value pairs (keys pairwise
distinct, as in a Python dict) in different orders serialize, and hence
hash, identically. -/
theorem content_hash_order_independent (md5 : String → String)
    (p₁ p₂ : List (String × JValue)) (hperm : p₁.Perm p₂)
    (hnd : (p₁.map Prod.fst).Nodup) :
    create_content_hash md5 p₁ = create_content_hash md5 p₂ := by
  have hsort : List.insertionSort pairKeyLe p₁ = List.insertionSort pairKeyLe p₂ := by
    have hp1 : List.Perm (List.insertionSort pairKeyLe p₁) p₁ := List.perm_insertionSort _ _
    have hp2 : List.Perm (List.insertionSort pairKeyLe p₂) p₂ := List.perm_insertionSort _ _
    have hps : List.Perm (List.insertionSort pairKeyLe p₁) (List.insertionSort pairKeyLe p₂) :=
      (hp1.trans hperm).trans hp2.symm
    have hs1 : List.Sorted pairKeyLe (List.insertionSort pairKeyLe p₁) :=
      List.sorted_insertionSort _ _
    have hs2 : List.Sorted pairKeyLe (List.insertionSort pairKeyLe p₂) :=
      List.sorted_insertionSort _ _
    have hnd1 : ((List.insertionSort pairKeyLe p₁).map Prod.fst).Nodup :=
      ((hp1.map Prod.fst).nodup_iff).mpr hnd
    have hnd2 : ((List.insertionSort pairKeyLe p₂).map Prod.fst).Nodup :=
      ((hp2.map Prod.fst).nodup_iff).mpr (((hperm.map Prod.fst).nodup_iff).mp hnd)
    have hne1 : (List.insertionSort pairKeyLe p₁).Pairwise fun a b => a.1 ≠ b.1 :=
      List.pairwise_map.mp hnd1
    have hne2 : (List.insertionSort pairKeyLe p₂).Pairwise fun a b => a.1 ≠ b.1 :=
      List.pairwise_map.mp hnd2
    have hlt1 : List.Sorted pairKeyLt (List.insertionSort pairKeyLe p₁) :=
      (hs1.and hne1).imp fun h => lt_of_le_of_ne h.1 h.2
    have hlt2 : List.Sorted pairKeyLt (List.insertionSort pairKeyLe p₂) :=
      (hs2.and hne2).imp fun h => lt_of_le_of_ne h.1 h.2
    exact List.eq_of_perm_of_sorted hps hlt1 hlt2
  unfold create_content_hash dumps_sorted
  rw [hsort]

/-- A two-field alert payload. -/
def hashPayloadA : List (String × JValue) :=
  [("zone", .jstr "Z1"), ("count", .jnum 7)]

/-- The same payload constructed in the opposite field order. -/
def hashPayloadB : List (String × JValue) :=
  [("count", .jnum 7), ("zone", .jstr "Z1")]

/-- C8 witness: the two construction orders of the same payload hash
identically (with the digest abstracted as the identity). -/
theorem content_hash_order_independent_witness :
    create_content_hash id hashPayloadA = create_content_hash id hashPayloadB := by
  exact content_hash_order_independent id hashPayloadA hashPayloadB
    (show List.Perm [("zone", JValue.jstr "Z1"), ("count", JValue.jnum 7)]
        [("count", JValue.jnum 7), ("zone", JValue.jstr "Z1")] from
      List.Perm.swap ("count", JValue.jnum 7) ("zone", JValue.jstr "Z1") [])
    (by simp [hashPayloadA])

/-- Auxiliary: for a target zone whose tier is not NONE, building a
suggestion succeeds, and its wait time follows the multiplier formula. -/
theorem create_suggestion_some (cur z : ZoneFlow) (hz : z.density_level ≠ .NONE) :
    ∃ s m, create_re_routing_suggestion cur z = some s ∧
      densityMultiplier z.density_level = some m ∧
      s.crowd_conditions_to = z ∧ s.from_zone = cur.zone_id ∧ s.to_zone = z.zone_id ∧
      s.estimated_wait_time = pyRound (5 * (z.occupancy_percentage / 100) * m) := by
  obtain ⟨m, hm⟩ : ∃ m, densityMultiplier z.density_level = some m := by
    cases hd : z.density_level
    · exact absurd hd hz
    all_goals exact ⟨_, rfl⟩
  refine ⟨{ from_zone := cur.zone_id
            to_zone := z.zone_id
            reason := generate_re_routing_reason cur z
            urgency := calculate_urgency cur z
            estimated_wait_time := pyRound (5 * (z.occupancy_percentage / 100) * m)
            alternative_routes :=
              find_alternative_routes cur.zone_id z.zone_id [cur, z]
            crowd_conditions_from := cur
            crowd_conditions_to := z }, m, ?_, hm, rfl, rfl, rfl, rfl⟩
  simp [create_re_routing_suggestion, estimate_wait_time, hm]

/-- Auxiliary: mapping suggestion creation over a list of non-NONE target
zones succeeds elementwise, preserving the list. -/
theorem mapM_create_suggestions (cur : ZoneFlow) :
    ∀ l : List ZoneFlow, (∀ z ∈ l, z.density_level ≠ .NONE) →
      ∃ l', l.mapM (create_re_routing_suggestion cur) = some l' ∧
        l'.map (fun s => s.crowd_conditions_to) = l ∧
        ∀ s ∈ l', s.from_zone = cur.zone_id ∧ s.to_zone = s.crowd_conditions_to.zone_id ∧
          ∃ m, densityMultiplier s.crowd_conditions_to.density_level = some m ∧
            s.estimated_wait_time =
              pyRound (5 * (s.crowd_conditions_to.occupancy_percentage / 100) * m) := by
  intro l
  induction l with
  | nil => intro _; exact ⟨[], rfl, rfl, by simp⟩
  | cons z zs ih =>
    intro hall
    obtain ⟨s, m, hcreate, hm, hcct, hfrom, hto, hwait⟩ :=
      create_suggestion_some cur z (hall z (by simp))
    obtain ⟨l', hmapM, hmap, hprops⟩ := ih fun w hw => hall w (by simp [hw])
    refine ⟨s :: l', ?_, ?_, ?_⟩
    · rw [List.mapM_cons, hcreate, hmapM]
      rfl
    · simp [hmap, hcct]
    · intro t ht
      rcases List.mem_cons.mp ht with rfl | ht'
      · exact ⟨hfrom, by rw [hcct]; exact hto, m, by rw [hcct]; exact hm,
          by rw [hcct]; exact hwait⟩
      · exact hprops t ht'

/-- C9 (amended): over a snapshot in which every zone that passes the
candidate filter has a tier other than NONE, the suggestion generator
succeeds and returns at most 3 suggestions; none targets the source zone,
a CRITICAL zone, or a zone at 90 percent occupancy or more; the targets
are ordered by (tier rank, occupancy) ascending; and each wait time is
`round(5 * occupancy/100 * multiplier)` with multipliers LOW 1,
MEDIUM 1.5, HIGH 2, CRITICAL 3. -/
theorem re_routing_suggestions_spec (cur : ZoneFlow) (zs : List ZoneFlow)
    (hsafe : ∀ z ∈ zs, z.zone_id ≠ cur.zone_id → z.density_level ≠ .CRITICAL →
      z.occupancy_percentage < 90 → z.density_level ≠ .NONE) :
    ∃ l, generate_re_routing_suggestions cur zs = some l ∧
      l.length ≤ 3 ∧
      (∀ s ∈ l,
        s.crowd_conditions_to.zone_id ≠ cur.zone_id ∧
        s.crowd_conditions_to.density_level ≠ .CRITICAL ∧
        s.crowd_conditions_to.occupancy_percentage < 90 ∧
        s.from_zone = cur.zone_id ∧ s.to_zone = s.crowd_conditions_to.zone_id ∧
        ∃ m, densityMultiplier s.crowd_conditions_to.density_level = some m ∧
          s.estimated_wait_time =
            pyRound (5 * (s.crowd_conditions_to.occupancy_percentage / 100) * m)) ∧
      List.Sorted zoneOrder (l.map fun s => s.crowd_conditions_to) := by
  have hmemc : ∀ z ∈ zs.filter (fun z => z.zone_id ≠ cur.zone_id ∧
      z.density_level ≠ .CRITICAL ∧ z.occupancy_percentage < 90),
      z.zone_id ≠ cur.zone_id ∧ z.density_level ≠ .CRITICAL ∧
        z.occupancy_percentage < 90 := by
    intro z hz
    simpa using (List.mem_filter.mp hz).2
  have hzs : ∀ z ∈ zs.filter (fun z => z.zone_id ≠ cur.zone_id ∧
      z.density_level ≠ .CRITICAL ∧ z.occupancy_percentage < 90), z ∈ zs :=
    fun z hz => (List.mem_filter.mp hz).1
  have hnone : ∀ z ∈ zs.filter (fun z => z.zone_id ≠ cur.zone_id ∧
      z.density_level ≠ .CRITICAL ∧ z.occupancy_percentage < 90),
      z.density_level ≠ .NONE := fun z hz =>
    hsafe z (hzs z hz) (hmemc z hz).1 (hmemc z hz).2.1 (hmemc z hz).2.2
  have hguard : ((zs.filter fun z => z.zone_id ≠ cur.zone_id ∧
      z.density_level ≠ .CRITICAL ∧ z.occupancy_percentage < 90).all
        fun z => z.density_level ≠ .NONE) = true := by
    rw [List.all_eq_true]
    intro z hz
    simpa using hnone z hz
  have hsub : ∀ z ∈ (List.insertionSort zoneOrder
      (zs.filter fun z => z.zone_id ≠ cur.zone_id ∧
        z.density_level ≠ .CRITICAL ∧ z.occupancy_percentage < 90)).take 3,
      z ∈ zs.filter fun z => z.zone_id ≠ cur.zone_id ∧
        z.density_level ≠ .CRITICAL ∧ z.occupancy_percentage < 90 := by
    intro z hz
    exact (List.perm_insertionSort zoneOrder _).subset (List.take_subset _ _ hz)
  obtain ⟨l, hmapM, hmap, hprops⟩ :=
    mapM_create_suggestions cur
      ((List.insertionSort zoneOrder
        (zs.filter fun z => z.zone_id ≠ cur.zone_id ∧
          z.density_level ≠ .CRITICAL ∧ z.occupancy_percentage < 90)).take 3)
      fun z hz => hnone z (hsub z hz)
  refine ⟨l, ?_, ?_, ?_, ?_⟩
  · simp only [generate_re_routing_suggestions]
    rw [if_pos hguard]
    exact hmapM
  · have hlen : l.length = ((List.insertionSort zoneOrder
        (zs.filter fun z => z.zone_id ≠ cur.zone_id ∧
          z.density_level ≠ .CRITICAL ∧ z.occupancy_percentage < 90)).take 3).length := by
      rw [← hmap, List.length_map]
    rw [hlen]
    exact List.length_take_le 3 _
  · intro s hs
    have hcct : s.crowd_conditions_to ∈ (List.insertionSort zoneOrder
        (zs.filter fun z => z.zone_id ≠ cur.zone_id ∧
          z.density_level ≠ .CRITICAL ∧ z.occupancy_percentage < 90)).take 3 := by
      rw [← hmap]
      exact List.mem_map_of_mem _ hs
    have hc := hmemc _ (hsub _ hcct)
    obtain ⟨hf, ht, m, hm, hw⟩ := hprops s hs
    exact ⟨hc.1, hc.2.1, hc.2.2, hf, ht, m, hm, hw⟩
  · rw [hmap]
    exact List.Pairwise.sublist (List.take_sublist 3 _)
      (List.sorted_insertionSort zoneOrder _)

/-- The source zone for the counterexample and witness snapshots. -/
def hotSourceZone : ZoneFlow :=
  { zone_id := "Z1", zone_name := "Main Ghat", capacity := 100,
    occupancy_percentage := 50, people_count := 50, density_level := .HIGH }

/-- An empty zone whose tier is NONE (produced by the frame analyzer for
a camera seeing zero people); initialization and updates can store such
records in `state.crowd_flow_data`. -/
def idleNoneZone : ZoneFlow :=
  { zone_id := "Z2", zone_name := "Riverbank", capacity := 100,
    occupancy_percentage := 0, people_count := 0, density_level := .NONE }

/-- C9 counterexample: a snapshot containing a NONE-tier zone (not the
source, not CRITICAL, below 90 percent occupancy) makes the generator
fail with a `KeyError` on the sort-key dictionary lookup instead of
returning a suggestion list. -/
theorem re_routing_none_tier_counterexample :
    generate_re_routing_suggestions hotSourceZone [idleNoneZone] = none := by
  have hfilter : ([idleNoneZone].filter fun z => z.zone_id ≠ hotSourceZone.zone_id ∧
      z.density_level ≠ .CRITICAL ∧ z.occupancy_percentage < 90) = [idleNoneZone] := by
    rw [List.filter_cons, List.filter_nil]
    rw [if_pos]
    simp only [decide_eq_true_eq]
    refine ⟨by simp [idleNoneZone, hotSourceZone], by simp [idleNoneZone], ?_⟩
    norm_num [idleNoneZone]
  simp only [generate_re_routing_suggestions, hfilter]
  rw [if_neg]
  simp [idleNoneZone]

/-- A lightly occupied LOW-tier zone for the C9 witness. -/
def lowZoneA : ZoneFlow :=
  { zone_id := "Z3", zone_name := "Camp A", capacity := 100,
    occupancy_percentage := 20, people_count := 20, density_level := .LOW }

/-- C9 witness: over a snapshot with a single LOW candidate zone, the
amended theorem applies and yields the guaranteed suggestion list. -/
theorem re_routing_suggestions_spec_witness :
    ∃ l, generate_re_routing_suggestions hotSourceZone [lowZoneA] = some l ∧
      l.length ≤ 3 ∧
      (∀ s ∈ l,
        s.crowd_conditions_to.zone_id ≠ hotSourceZone.zone_id ∧
        s.crowd_conditions_to.density_level ≠ .CRITICAL ∧
        s.crowd_conditions_to.occupancy_percentage < 90 ∧
        s.from_zone = hotSourceZone.zone_id ∧
        s.to_zone = s.crowd_conditions_to.zone_id ∧
        ∃ m, densityMultiplier s.crowd_conditions_to.density_level = some m ∧
          s.estimated_wait_time =
            pyRound (5 * (s.crowd_conditions_to.occupancy_percentage / 100) * m)) ∧
      List.Sorted zoneOrder (l.map fun s => s.crowd_conditions_to) := by
  refine re_routing_suggestions_spec hotSourceZone [lowZoneA] ?_
  intro z hz _ _ _
  rcases List.mem_singleton.mp hz with rfl
  simp [lowZoneA]

/-- Auxiliary: the anomaly loop publishes only anomaly alerts, never a
live-count update or a threshold breach. -/
theorem anomaly_loop_kinds (hashAN : Anomaly → String) (now : ℚ) (camera_id : String)
    (zone_id : Option String) :
    ∀ (l : List Anomaly) (st : DedupState),
      ∀ m ∈ (anomaly_alert_loop hashAN now camera_id zone_id l st).1,
        isCountOrBreach m = false := by
  intro l
  induction l with
  | nil => intro st m hm; simp [anomaly_alert_loop] at hm
  | cons a rest ih =>
    intro st m hm
    simp only [anomaly_alert_loop] at hm
    rcases List.mem_append.mp hm with h | h
    · split_ifs at h
      · rcases List.mem_singleton.mp h with rfl
        rfl
      · simp at h
    · exact ih _ m h

/-- C10: when the people count of the analyzed frame equals the
previously handled count, `_handle_analysis` publishes neither a
LIVE_COUNT_UPDATE nor a THRESHOLD_BREACH on the alerts channel - whatever
the threshold and debounce state - and `last_count` stays unchanged. -/
theorem unchanged_count_no_count_alerts (hashCU : CountUpdateMsg → String)
    (hashTB : ThresholdBreachMsg → String) (hashAN : Anomaly → String)
    (hashHM : HeatmapData → String) (now : ℚ) (camera_id : String)
    (zone_id : Option String) (threshold last_count : ℕ)
    (analysis : FrameAnalysis) (st : DedupState)
    (h : analysis.people_count = last_count) :
    (∀ m ∈ (handle_analysis_alerts hashCU hashTB hashAN hashHM now camera_id zone_id
        threshold last_count analysis st).1, isCountOrBreach m = false) ∧
    (handle_analysis_alerts hashCU hashTB hashAN hashHM now camera_id zone_id
        threshold last_count analysis st).2.1 = last_count := by
  have hne : ¬(analysis.people_count ≠ last_count) := by simpa using h
  constructor
  · intro m hm
    simp only [handle_analysis_alerts, if_neg hne, List.nil_append] at hm
    rcases List.mem_append.mp hm with h1 | h2
    · exact anomaly_loop_kinds hashAN now camera_id zone_id analysis.anomalies st m h1
    · rcases hd : analysis.heatmap_data with _ | hmap
      · rw [hd] at h2
        simp at h2
      · simp only [hd] at h2
        by_cases hsend : (should_send_alert now "HEATMAP_ALERT" camera_id (hashHM hmap) 5
            (anomaly_alert_loop hashAN now camera_id zone_id analysis.anomalies st).2).1 = true
        · rw [if_pos hsend] at h2
          rcases List.mem_singleton.mp h2 with rfl
          rfl
        · rw [if_neg hsend] at h2
          simp at h2
  · simp [handle_analysis_alerts, if_neg hne]

/-- A frame analysis whose count equals the previous count and exceeds
the threshold. -/
def unchangedAnalysis : FrameAnalysis :=
  { frame_id := "cam1_2", people_count := 25, people_detections := [],
    density_level := .CRITICAL, anomalies := [], heatmap_data := none }

/-- C10 witness: with count 25 = previous count 25 over threshold 20 and
a fresh dedup state, no live-count or threshold-breach message is
published and `last_count` stays 25. -/
theorem unchanged_count_no_count_alerts_witness :
    (∀ m ∈ (handle_analysis_alerts (fun _ => "h") (fun _ => "h") (fun _ => "h")
        (fun _ => "h") 0 "cam1" none 20 25 unchangedAnalysis emptyDedupState).1,
      isCountOrBreach m = false) ∧
    (handle_analysis_alerts (fun _ => "h") (fun _ => "h") (fun _ => "h")
        (fun _ => "h") 0 "cam1" none 20 25 unchangedAnalysis emptyDedupState).2.1 = 25 :=
  unchanged_count_no_count_alerts (fun _ => "h") (fun _ => "h") (fun _ => "h")
    (fun _ => "h") 0 "cam1" none 20 25 unchangedAnalysis emptyDedupState rfl

end KumbhWatch


